import Mathlib

set_option maxRecDepth 8000

/-!
Shallow embedding of `kule` (src/kule/kule.py), a REST gateway over a MongoDB
document store built on bottle.  Documents are JSON objects; the store
(pymongo) and HTTP layer (bottle) are external collaborators, modelled here to
the extent the gateway's behaviour depends on them:

* `Json` models JSON values together with BSON ObjectId values (`Json.oid`),
  since pymongo documents carry ObjectIds that are distinct from strings.
* `MongoDB` models the named database handle `self.connection`: a finite map
  from collection names to document lists (in natural = insertion order)
  plus a counter used to generate fresh ObjectIds on insert.
* Handlers are modelled in explicit state-passing style: they receive the
  database and the ambient `response.status` (bottle's default is 200) and
  either return `HRes.ok body db status` or terminate abnormally
  (`HRes.err`), carrying the database as mutated so far.  `Abort.http s` models
  bottle's `abort(s)` / `HTTPError`; `Abort.exc name` models an uncaught Python
  exception, which bottle converts to HTTP 500.
-/

inductive Json where
  | null
  | bool (flag : Bool)
  | num (z : Int)
  | str (text : String)
  | oid (hex : String)
  | arr (items : List Json)
  | obj (fields : List (String × Json))
deriving Repr

mutual

/-- Structural equality on JSON values (Python `==` on parsed JSON data;
field order is significant, matching MongoDB's embedded-document equality). -/
def Json.beq : Json → Json → Bool
  | .null, .null => true
  | .bool u, .bool v => u == v
  | .num u, .num v => u == v
  | .str u, .str v => u == v
  | .oid u, .oid v => u == v
  | .arr us, .arr vs => Json.beqList us vs
  | .obj us, .obj vs => Json.beqFields us vs
  | _, _ => false

def Json.beqList : List Json → List Json → Bool
  | [], [] => true
  | u :: us, v :: vs => Json.beq u v && Json.beqList us vs
  | _, _ => false

def Json.beqFields : List (String × Json) → List (String × Json) → Bool
  | [], [] => true
  | (ka, va) :: us, (kb, vb) :: vs => ka == kb && Json.beq va vb && Json.beqFields us vs
  | _, _ => false

end

instance : BEq Json := ⟨Json.beq⟩

mutual

theorem Json.eq_of_beq : ∀ {a b : Json}, Json.beq a b = true → a = b
  | .null, .null, _ => rfl
  | .bool a, .bool b, h => by simp [Json.beq] at h; simp [h]
  | .num a, .num b, h => by simp [Json.beq] at h; simp [h]
  | .str a, .str b, h => by simp [Json.beq] at h; simp [h]
  | .oid a, .oid b, h => by simp [Json.beq] at h; simp [h]
  | .arr a, .arr b, h => by
      simp only [Json.beq] at h
      simp [Json.eqList_of_beqList h]
  | .obj a, .obj b, h => by
      simp only [Json.beq] at h
      simp [Json.eqFields_of_beqFields h]

theorem Json.eqList_of_beqList : ∀ {a b : List Json}, Json.beqList a b = true → a = b
  | [], [], _ => rfl
  | x :: xs, y :: ys, h => by
      simp only [Json.beqList, Bool.and_eq_true] at h
      simp [Json.eq_of_beq h.1, Json.eqList_of_beqList h.2]

theorem Json.eqFields_of_beqFields :
    ∀ {a b : List (String × Json)}, Json.beqFields a b = true → a = b
  | [], [], _ => rfl
  | (k, v) :: xs, (k', v') :: ys, h => by
      simp only [Json.beqFields, Bool.and_eq_true] at h
      obtain ⟨⟨h1, h2⟩, h3⟩ := h
      simp only [beq_iff_eq] at h1
      simp [h1, Json.eq_of_beq h2, Json.eqFields_of_beqFields h3]

end

mutual

theorem Json.beq_refl : ∀ a : Json, Json.beq a a = true
  | .null => rfl
  | .bool a => by simp [Json.beq]
  | .num a => by simp [Json.beq]
  | .str a => by simp [Json.beq]
  | .oid a => by simp [Json.beq]
  | .arr a => by simp only [Json.beq]; exact Json.beqList_refl a
  | .obj a => by simp only [Json.beq]; exact Json.beqFields_refl a

theorem Json.beqList_refl : ∀ a : List Json, Json.beqList a a = true
  | [] => rfl
  | x :: xs => by
      simp only [Json.beqList, Bool.and_eq_true]
      exact ⟨Json.beq_refl x, Json.beqList_refl xs⟩

theorem Json.beqFields_refl : ∀ a : List (String × Json), Json.beqFields a a = true
  | [] => rfl
  | (k, v) :: xs => by
      simp only [Json.beqFields, Bool.and_eq_true]
      exact ⟨⟨by simp, Json.beq_refl v⟩, Json.beqFields_refl xs⟩

end

instance : LawfulBEq Json where
  eq_of_beq h := Json.eq_of_beq h
  rfl := Json.beq_refl _

instance : DecidableEq Json := fun a b =>
  if h : Json.beq a b = true then .isTrue (Json.eq_of_beq h)
  else .isFalse (fun he => h (he ▸ Json.beq_refl a))

/-- A MongoDB document: an ordered association of field names to values
(Python dicts preserve no useful order for our claims; lookups are by key). -/
abbrev Doc := List (String × Json)

/-- Association-list lookup by key (first occurrence wins), used both for
document field access and for the modelled attribute tables below. -/
def assocLookup {α : Type} : List (String × α) → String → Option α
  | [], _ => none
  | (k, v) :: rest, key => if k = key then some v else assocLookup rest key

/-- Association-list update: replaces the first binding of `key` in place, or
appends a new binding at the end (MongoDB `$set` / collection-map semantics). -/
def assocSet {α : Type} : List (String × α) → String → α → List (String × α)
  | [], key, v => [(key, v)]
  | (k, v') :: rest, key, v =>
      if k = key then (key, v) :: rest else (k, v') :: assocSet rest key v

/-- MongoDB query matching for plain (non-operator) filters: every filter field
must be present in the document with a structurally equal value.  Operator
filters (keys such as a dollar-prefixed comparison) are outside the behaviour
this development relies on and are modelled as plain field equality. -/
def matchesFilter (d : Doc) (f : List (String × Json)) : Bool :=
  f.all (fun kv => assocLookup d kv.1 == some kv.2)

/-- Python truthiness of a document returned by `find_one`: an empty dict is
falsy (relevant to `find_one(...) or abort(404)` in `get_detail`). -/
def docTruthy (d : Doc) : Bool := !d.isEmpty

def isHexChar (c : Char) : Bool :=
  ('0' ≤ c && c ≤ '9') || ('a' ≤ c && c ≤ 'f') || ('A' ≤ c && c ≤ 'F')

/-- The lowercase hex digit of `n % 16`, computed arithmetically. -/
def hexChar (n : Nat) : Char :=
  if n % 16 < 10 then Char.ofNat (48 + n % 16) else Char.ofNat (87 + n % 16)

/-- The hex string of a freshly generated 12-byte ObjectId, derived from the
model's fresh-id counter (24 lowercase hex digits). -/
def oidOfNat (n : Nat) : String :=
  String.mk ((List.range 24).map (fun i => hexChar (n / 16 ^ (23 - i))))

/-- Validity check of `bson.ObjectId(pk)`: a 24-character hex string or a
12-character (12-byte) binary string; anything else raises `InvalidId`. -/
def isValidOid (s : String) : Bool :=
  (s.length == 24 && s.data.all isHexChar) || s.length == 12

/-- Models the `bson.ObjectId` constructor applied to the path parameter `pk`:
returns the ObjectId (kept as its string token) or raises `InvalidId`. -/
def objectIdFromString (pk : String) : Except String String :=
  if isValidOid pk then .ok pk else .error "InvalidId"

/-! JSON text parsing, modelling Python's `json.loads` on the fragment the
gateway relies on: objects, arrays, strings (with the single-character
escapes; `\u` escapes are out of scope), integers (floats are out of scope),
booleans and null.  A failed parse models the `ValueError` that
`json.loads` raises on malformed input. -/

def skipWs : List Char → List Char
  | [] => []
  | c :: cs => if c = ' ' || c = '\t' || c = '\n' || c = '\r' then skipWs cs else c :: cs

def escChar (e : Char) : Option Char :=
  if e = '"' then some '"'
  else if e = '\\' then some '\\'
  else if e = '/' then some '/'
  else if e = 'n' then some '\n'
  else if e = 't' then some '\t'
  else if e = 'r' then some '\r'
  else if e = 'b' then some (Char.ofNat 8)
  else if e = 'f' then some (Char.ofNat 12)
  else none

/-- Parses the body of a JSON string literal (after the opening quote),
returning the decoded characters and the remaining input. -/
def parseStrChars : List Char → Option (List Char × List Char)
  | [] => none
  | '"' :: rest => some ([], rest)
  | '\\' :: e :: rest =>
      match escChar e with
      | none => none
      | some ec =>
          match parseStrChars rest with
          | none => none
          | some (s, r) => some (ec :: s, r)
  | c :: rest =>
      if c.toNat < 32 then none
      else
        match parseStrChars rest with
        | none => none
        | some (s, r) => some (c :: s, r)

def natOfDigits (ds : List Char) : Nat :=
  ds.foldl (fun a c => a * 10 + (c.toNat - 48)) 0

/-- Parses a JSON integer literal (optional minus, digits, no leading zeros);
inputs that continue with a fraction or exponent are outside the modelled
fragment and fail. -/
def parseNum (cs : List Char) : Option (Json × List Char) :=
  let neg := cs.headD 'x' = '-'
  let cs1 := if neg then cs.drop 1 else cs
  let ds := cs1.takeWhile Char.isDigit
  let rest := cs1.dropWhile Char.isDigit
  if ds.isEmpty then none
  else if ds.length > 1 && ds.headD '0' = '0' then none
  else
    match rest with
    | c :: _ =>
        if c = '.' || c = 'e' || c = 'E' then none
        else some (.num (if neg then -(natOfDigits ds : Int) else (natOfDigits ds : Int)), rest)
    | [] => some (.num (if neg then -(natOfDigits ds : Int) else (natOfDigits ds : Int)), rest)

mutual

def parseVal : Nat → List Char → Option (Json × List Char)
  | 0, _ => none
  | fuel + 1, cs =>
      match skipWs cs with
      | 'n' :: 'u' :: 'l' :: 'l' :: more => some (.null, more)
      | 't' :: 'r' :: 'u' :: 'e' :: more => some (.bool true, more)
      | 'f' :: 'a' :: 'l' :: 's' :: 'e' :: more => some (.bool false, more)
      | '"' :: rest =>
          match parseStrChars rest with
          | none => none
          | some (s, r) => some (.str (String.mk s), r)
      | '{' :: rest =>
          match skipWs rest with
          | '}' :: r => some (.obj [], r)
          | rest' =>
              match parseMembers fuel rest' with
              | none => none
              | some (fields, r) => some (.obj fields, r)
      | '[' :: rest =>
          match skipWs rest with
          | ']' :: r => some (.arr [], r)
          | rest' =>
              match parseElems fuel rest' with
              | none => none
              | some (elems, r) => some (.arr elems, r)
      | c :: rest =>
          if c = '-' || c.isDigit then parseNum (c :: rest) else none
      | [] => none

def parseMembers : Nat → List Char → Option (List (String × Json) × List Char)
  | 0, _ => none
  | fuel + 1, cs =>
      match skipWs cs with
      | '"' :: rest =>
          match parseStrChars rest with
          | none => none
          | some (key, r1) =>
              match skipWs r1 with
              | ':' :: r2 =>
                  match parseVal fuel r2 with
                  | none => none
                  | some (v, r3) =>
                      match skipWs r3 with
                      | ',' :: r4 =>
                          match parseMembers fuel r4 with
                          | none => none
                          | some (fields, r5) => some ((String.mk key, v) :: fields, r5)
                      | '}' :: r4 => some ([(String.mk key, v)], r4)
                      | _ => none
              | _ => none
      | _ => none

def parseElems : Nat → List Char → Option (List Json × List Char)
  | 0, _ => none
  | fuel + 1, cs =>
      match parseVal fuel cs with
      | none => none
      | some (v, r1) =>
          match skipWs r1 with
          | ',' :: r2 =>
              match parseElems fuel r2 with
              | none => none
              | some (elems, r3) => some (v :: elems, r3)
          | ']' :: r2 => some ([v], r2)
          | _ => none

end

/-- Models `json.loads`: parses a complete JSON value (the whole input must be
consumed up to trailing whitespace); failure models the raised `ValueError`. -/
def json_loads (s : String) : Except String Json :=
  match parseVal (s.length + 1) s.data with
  | some (j, rest) => if skipWs rest = [] then .ok j else .error "ValueError"
  | none => .error "ValueError"

/-! The document store (pymongo), modelled as a pure value. -/

structure MongoDB where
  colls : List (String × List Doc)
  nextId : Nat
deriving Repr

def MongoDB.getColl (db : MongoDB) (c : String) : List Doc :=
  (assocLookup db.colls c).getD []

def MongoDB.setColl (db : MongoDB) (c : String) (docs : List Doc) : MongoDB :=
  { colls := assocSet db.colls c docs, nextId := db.nextId }

/-- `collection.find(filter)` restricted to plain filters, as a list in
natural (insertion) order.  A non-dict filter raises `TypeError`. -/
def MongoDB.findDocs (db : MongoDB) (c : String) (f : List (String × Json)) : List Doc :=
  (db.getColl c).filter (fun d => matchesFilter d f)

def MongoDB.find (db : MongoDB) (c : String) (query : Json) : Except String (List Doc) :=
  match query with
  | .obj f => .ok (db.findDocs c f)
  | _ => .error "TypeError"

/-- `collection.find_one(filter)`: the first matching document, if any. -/
def MongoDB.find_one (db : MongoDB) (c : String) (f : List (String × Json)) : Option Doc :=
  (db.findDocs c f).head?

/-- `collection.insert(doc)`: inserting a dict without `_id` generates a fresh
ObjectId, stores the document with `_id` added, and returns the id; a dict
carrying `_id` is stored as-is and its id returned.  Inserting a non-dict
(in particular `None`, when the request body was not JSON) raises. -/
def MongoDB.insert (db : MongoDB) (c : String) (body : Option Json) :
    Except String (Json × MongoDB) :=
  match body with
  | some (.obj fields) =>
      match assocLookup fields "_id" with
      | some idv => .ok (idv, db.setColl c (db.getColl c ++ [fields]))
      | none =>
          let newId := oidOfNat db.nextId
          let doc := ("_id", Json.oid newId) :: fields
          .ok (Json.oid newId,
               { colls := assocSet db.colls c (db.getColl c ++ [doc]),
                 nextId := db.nextId + 1 })
  | _ => .error "TypeError"

/-- pymongo decides between a modifier update and a full replace by
inspecting the first key of the change document: a modifier key starts with
the dollar character (a first-character test, written on `.data` here). -/
def isModifierDoc (fields : List (String × Json)) : Bool :=
  match fields with
  | (k, _) :: _ =>
      match k.data with
      | c :: _ => c = '$'
      | [] => false
  | [] => false

/-- Applies a `$set` document: each given field is written into the document,
replacing the old value in place or appending a new field. -/
def applySet (d : Doc) (p : List (String × Json)) : Doc :=
  p.foldl (fun acc kv => assocSet acc kv.1 kv.2) d

/-- Full-document replace keeps the stored `_id` when the replacement does not
carry one (the gateway's PUT bodies normally do not). -/
def replaceWith (fields : List (String × Json)) (d : Doc) : Doc :=
  match assocLookup fields "_id" with
  | some _ => fields
  | none =>
      match assocLookup d "_id" with
      | some idv => ("_id", idv) :: fields
      | none => fields

/-- Non-multi update: only the first matching document is transformed. -/
def updateFirst : List Doc → List (String × Json) → (Doc → Doc) → List Doc
  | [], _, _ => []
  | d :: rest, f, g =>
      if matchesFilter d f then g d :: rest else d :: updateFirst rest f g

/-- `collection.update(spec, change)` with default options (no upsert, not
multi): a change document whose first key is dollar-prefixed is a modifier
(only `$set`, the one the gateway issues, is modelled; other modifiers fail);
otherwise the first matching document is replaced.  A non-dict change (in
particular `None`) raises. -/
def MongoDB.update (db : MongoDB) (c : String) (spec : List (String × Json))
    (change : Option Json) : Except String MongoDB :=
  match change with
  | some (.obj fields) =>
      if isModifierDoc fields then
        match assocLookup fields "$set" with
        | some (.obj setFields) =>
            .ok (db.setColl c (updateFirst (db.getColl c) spec (fun d => applySet d setFields)))
        | _ => .error "OperationFailure"
      else
        .ok (db.setColl c (updateFirst (db.getColl c) spec (replaceWith fields)))
  | _ => .error "TypeError"

/-- `collection.remove(spec)`: removes every matching document. -/
def MongoDB.remove (db : MongoDB) (c : String) (f : List (String × Json)) : MongoDB :=
  db.setColl c ((db.getColl c).filter (fun d => !matchesFilter d f))

/-! Request, abnormal termination, handler results, and the helpers module. -/

/-- The parts of the bottle request the handlers read: `request.json` (None
when the body is not JSON) and the query-string parameters. -/
structure Request where
  json : Option Json
  limit : Option String
  offset : Option String
  query : Option String

/-- Abnormal termination of a handler: `http s` is bottle's `abort(s)` /
`HTTPError`; `exc name` is an uncaught Python exception. -/
inductive Abort where
  | http (status : Nat)
  | exc (name : String)
deriving Repr, DecidableEq

/-- Outcome of running a handler body: a returned body together with the
database and the ambient `response.status`, or an abnormal termination
(which still carries the database as mutated so far). -/
inductive HRes where
  | ok (body : Option Json) (db : MongoDB) (status : Nat)
  | err (a : Abort) (db : MongoDB) (status : Nat)
deriving Repr

/-- Modelled from the spec: `int_or_default` from the repository's helpers
module (absent from src/): parses the value as an integer, falling back to
the default for a missing or non-numeric value; it never raises. -/
def int_or_default (v : Option String) (d : Int) : Int :=
  match v with
  | none => d
  | some s => (s.trim.toInt?).getD d

/-- Modelled from the spec: `jsonify` from the repository's helpers module
(absent from src/): serializes a value to the JSON response body; modelled
as the identity on the JSON AST. -/
def jsonify (j : Json) : Json := j

/-- `request.json` as a JSON value: `None` serializes as JSON null. -/
def jsonOfOptional (o : Option Json) : Json := o.getD .null

/-- Cursor pagination `cursor.skip(offset).limit(limit)`: a limit of 0 means
no limit; a negative limit acts as a hard limit of its magnitude; a negative
offset is outside the behaviour the gateway relies on. -/
def cursorPage (docs : List Doc) (offset limit : Int) : List Doc :=
  let skipped := docs.drop offset.toNat
  if limit = 0 then skipped else skipped.take limit.natAbs

/-! The Kule class.  `collections` is the optional whitelist
(`None` or a list; Python truthiness makes both `None` and `[]` permissive).
Subclass customization enters through two modelled attribute tables:
`extraBundlers` are methods named `build_<collection>_bundle`, and
`extraViews` are the names of additional handler methods, both looked up by
`getattr` in the source. -/

structure Kule where
  collections : Option (List String)
  extraBundlers : List (String × (Doc → Doc))
  extraViews : List String

/-- Python truthiness of `self.collections`. -/
def collectionsTruthy : Option (List String) → Bool
  | none => false
  | some l => !l.isEmpty

/-- `Kule.get_collection`: returns the collection (handle = its name) if it is
permitted; with a truthy whitelist not containing the name, aborts 403. -/
def Kule.get_collection (k : Kule) (collection : String) : Except Abort String :=
  if collectionsTruthy k.collections && !(k.collections.getD []).contains collection then
    .error (.http 403)
  else
    .ok collection

/-- `Kule.build_bundle`: the dummy (identity) bundler. -/
def Kule.build_bundle (data : Doc) : Doc := data

/-- `Kule.get_bundler`: `getattr(self, "build_<name>_bundle", self.build_bundle)`. -/
def Kule.get_bundler (k : Kule) (collectionName : String) : Doc → Doc :=
  match assocLookup k.extraBundlers ("build_" ++ collectionName ++ "_bundle") with
  | some f => f
  | none => Kule.build_bundle

/-- `Kule.get_query`: the `query` parameter decoded by `json.loads`; a missing
or empty (falsy) parameter yields the empty filter. -/
def Kule.get_query (req : Request) : Except String Json :=
  match req.query with
  | none => .ok (Json.obj [])
  | some q => if q = "" then .ok (Json.obj []) else json_loads q

/-- `Kule.get_detail`. -/
def Kule.get_detail (k : Kule) (collection pk : String) (db : MongoDB) (st : Nat) : HRes :=
  match k.get_collection collection with
  | .error a => .err a db st
  | .ok cur =>
      match objectIdFromString pk with
      | .error e => .err (.exc e) db st
      | .ok oid =>
          match db.find_one cur [("_id", Json.oid oid)] with
          | some data =>
              if docTruthy data then
                .ok (some (jsonify (Json.obj (k.get_bundler cur data)))) db st
              else .err (.http 404) db st
          | none => .err (.http 404) db st

/-- `Kule.put_detail`. -/
def Kule.put_detail (k : Kule) (req : Request) (collection pk : String)
    (db : MongoDB) (st : Nat) : HRes :=
  match k.get_collection collection with
  | .error a => .err a db st
  | .ok coll =>
      match objectIdFromString pk with
      | .error e => .err (.exc e) db st
      | .ok oid =>
          match db.update coll [("_id", Json.oid oid)] req.json with
          | .error e => .err (.exc e) db st
          | .ok db' => .ok (some (jsonify (jsonOfOptional req.json))) db' 202

/-- `Kule.patch_detail`: a `$set` update, then re-fetch through `get_detail`
(with `response.status` already set to 202). -/
def Kule.patch_detail (k : Kule) (req : Request) (collection pk : String)
    (db : MongoDB) (st : Nat) : HRes :=
  match k.get_collection collection with
  | .error a => .err a db st
  | .ok coll =>
      match objectIdFromString pk with
      | .error e => .err (.exc e) db st
      | .ok oid =>
          match db.update coll [("_id", Json.oid oid)]
              (some (Json.obj [("$set", jsonOfOptional req.json)])) with
          | .error e => .err (.exc e) db st
          | .ok db' => Kule.get_detail k coll pk db' 202

/-- `Kule.delete_detail`: removes and returns no body with status 204. -/
def Kule.delete_detail (k : Kule) (collection pk : String) (db : MongoDB) (st : Nat) : HRes :=
  match k.get_collection collection with
  | .error a => .err a db st
  | .ok coll =>
      match objectIdFromString pk with
      | .error e => .err (.exc e) db st
      | .ok oid => .ok none (db.remove coll [("_id", Json.oid oid)]) 204

/-- `Kule.post_list`: inserts the request body and answers 201 with the id. -/
def Kule.post_list (k : Kule) (req : Request) (collection : String)
    (db : MongoDB) (st : Nat) : HRes :=
  match k.get_collection collection with
  | .error a => .err a db st
  | .ok coll =>
      match db.insert coll req.json with
      | .error e => .err (.exc e) db st
      | .ok (idv, db') => .ok (some (jsonify (Json.obj [("_id", idv)]))) db' 201

/-- `Kule.get_list`: pagination, filter, total count over the whole filter
result, bundler per record. -/
def Kule.get_list (k : Kule) (req : Request) (collection : String)
    (db : MongoDB) (st : Nat) : HRes :=
  match k.get_collection collection with
  | .error a => .err a db st
  | .ok coll =>
      let lim := int_or_default req.limit 20
      let off := int_or_default req.offset 0
      match Kule.get_query req with
      | .error e => .err (.exc e) db st
      | .ok query =>
          match db.find coll query with
          | .error e => .err (.exc e) db st
          | .ok results =>
              let meta := Json.obj [("limit", Json.num lim), ("offset", Json.num off),
                                    ("total_count", Json.num results.length)]
              let objs := (cursorPage results off lim).map
                (fun d => Json.obj (k.get_bundler coll d))
              .ok (some (jsonify (Json.obj [("meta", meta), ("objects", Json.arr objs)]))) db st

/-- `Kule.not_implemented`: aborts 501. -/
def Kule.not_implemented (db : MongoDB) (st : Nat) : HRes :=
  .err (.http 501) db st

/-- `Kule.error`: the error-response body `{error: status, message: text}`. -/
def Kule.error (message : String) (statusCode : Nat) : Json :=
  Json.obj [("error", Json.num statusCode), ("message", Json.str message)]

/-- `Kule.get_error_handler`: the status → message table. -/
def error_message : Nat → Option String
  | 500 => some "Internal Server Error."
  | 404 => some "Document Not Found."
  | 501 => some "Not Implemented."
  | 405 => some "Method Not Allowed."
  | 403 => some "Forbidden."
  | 400 => some "Bad request."
  | _ => none

structure Response where
  status : Nat
  body : Option Json
deriving Repr, DecidableEq

/-- The bottle layer around one handler invocation: a normal return keeps the
ambient status; `abort(s)` produces status `s` with the mapped error body;
an uncaught exception produces 500.  The database mutations made before an
abnormal termination persist. -/
def bottle_handle (r : HRes) : Response × MongoDB :=
  match r with
  | .ok body db st => (⟨st, body⟩, db)
  | .err (.http s) db _ =>
      (⟨s, (error_message s).map (fun m => Kule.error m s)⟩, db)
  | .err (.exc _) db _ =>
      (⟨500, (error_message 500).map (fun m => Kule.error m 500)⟩, db)

/-- Runs a handler the way bottle does: ambient status starts at 200. -/
def runHandler (h : MongoDB → Nat → HRes) (db : MongoDB) : Response × MongoDB :=
  bottle_handle (h db 200)

/-! Route-table construction (`Kule.dispatch_views`). -/

structure Route where
  path : String
  verb : String
  handler : String
deriving Repr, DecidableEq

/-- The method attributes defined on the `Kule` class itself (what `getattr`
can find besides subclass additions). -/
def kuleMethods : List String :=
  ["connect", "get_collection", "get_detail", "put_detail", "patch_detail",
   "delete_detail", "post_list", "get_list", "get_query", "get_bundler",
   "build_bundle", "get_error_handler", "dispatch_views", "after_request",
   "get_bottle_app", "not_implemented", "error", "run"]

/-- `getattr(self, name, ...) is found`: a class method, a subclass handler
method, or a subclass bundler method. -/
def Kule.hasMethod (k : Kule) (n : String) : Bool :=
  kuleMethods.contains n || k.extraViews.contains n
    || (k.extraBundlers.map Prod.fst).contains n

def httpVerbs : List String := ["get", "post", "put", "patch", "delete"]

/-- `Kule.dispatch_views`: for every verb, the generic list and detail paths
are routed to `<verb>_list` / `<verb>_detail` when such a method exists, else
to `not_implemented`; additionally, for every whitelisted collection, the
collection-specific (magical) paths are registered exactly when a method
named `<verb>_<collection>_list` / `<verb>_<collection>_detail` exists. -/
def Kule.dispatch_views (k : Kule) : List Route :=
  httpVerbs.flatMap (fun m =>
    [⟨"/:collection", m, if k.hasMethod (m ++ "_list") then m ++ "_list" else "not_implemented"⟩,
     ⟨"/:collection/:pk", m,
       if k.hasMethod (m ++ "_detail") then m ++ "_detail" else "not_implemented"⟩]
    ++ (k.collections.getD []).flatMap (fun c =>
      (if k.hasMethod (m ++ "_" ++ c ++ "_list")
        then [⟨"/" ++ c, m, m ++ "_" ++ c ++ "_list"⟩] else [])
      ++ (if k.hasMethod (m ++ "_" ++ c ++ "_detail")
        then [⟨"/" ++ c ++ "/:id", m, m ++ "_" ++ c ++ "_detail"⟩] else [])))

/-! Supporting lemmas about the store model. -/

theorem assocLookup_assocSet_self {α : Type} (l : List (String × α)) (key : String) (v : α) :
    assocLookup (assocSet l key v) key = some v := by
  induction l with
  | nil => simp [assocSet, assocLookup]
  | cons hd tl ih =>
      obtain ⟨k, v'⟩ := hd
      by_cases h : k = key <;> simp [assocSet, assocLookup, h, ih]

theorem assocLookup_assocSet_other {α : Type} (l : List (String × α)) (key key' : String)
    (v : α) (h : key' ≠ key) :
    assocLookup (assocSet l key v) key' = assocLookup l key' := by
  induction l with
  | nil => simp [assocSet, assocLookup, Ne.symm h]
  | cons hd tl ih =>
      obtain ⟨k, v'⟩ := hd
      by_cases hk : k = key
      · subst hk
        simp [assocSet, assocLookup, Ne.symm h]
      · simp [assocSet, assocLookup, hk, ih]

theorem assocSet_assocSet {α : Type} (l : List (String × α)) (key : String) (v v' : α) :
    assocSet (assocSet l key v) key v' = assocSet l key v' := by
  induction l with
  | nil => simp [assocSet]
  | cons hd tl ih =>
      obtain ⟨k, w⟩ := hd
      by_cases h : k = key <;> simp [assocSet, h, ih]

theorem MongoDB.getColl_setColl (db : MongoDB) (c : String) (l : List Doc) :
    (db.setColl c l).getColl c = l := by
  simp [MongoDB.getColl, MongoDB.setColl, assocLookup_assocSet_self]

theorem MongoDB.setColl_setColl (db : MongoDB) (c : String) (l l' : List Doc) :
    (db.setColl c l).setColl c l' = db.setColl c l' := by
  simp [MongoDB.setColl, assocSet_assocSet]

theorem matchesFilter_single (d : Doc) (key : String) (v : Json) :
    matchesFilter d [(key, v)] = (assocLookup d key == some v) := by
  simp [matchesFilter]

theorem filter_eq_nil_of_false {α : Type} (p : α → Bool) (l : List α)
    (h : ∀ x ∈ l, p x = false) : l.filter p = [] := by
  induction l with
  | nil => rfl
  | cons hd tl ih =>
      rw [List.filter_cons, h hd (List.mem_cons_self hd tl)]
      exact ih (fun x hx => h x (List.mem_cons_of_mem hd hx))

theorem docTruthy_of_lookup (d : Doc) (key : String) (v : Json)
    (h : assocLookup d key = some v) : docTruthy d = true := by
  cases d with
  | nil => simp [assocLookup] at h
  | cons hd tl => simp [docTruthy]

theorem updateFirst_append (pre post : List Doc) (d : Doc) (f : List (String × Json))
    (g : Doc → Doc) (hpre : ∀ x ∈ pre, matchesFilter x f = false)
    (hd : matchesFilter d f = true) :
    updateFirst (pre ++ d :: post) f g = pre ++ g d :: post := by
  induction pre with
  | nil => simp [updateFirst, hd]
  | cons x xs ih =>
      have hx := hpre x (List.mem_cons_self x xs)
      simp only [List.cons_append, updateFirst, hx]
      simp [ih (fun y hy => hpre y (List.mem_cons_of_mem x hy))]

theorem head_filter_around (pre post : List Doc) (d : Doc) (p : Doc → Bool)
    (hpre : ∀ x ∈ pre, p x = false) (hd : p d = true) :
    ((pre ++ d :: post).filter p).head? = some d := by
  rw [List.filter_append, filter_eq_nil_of_false p pre hpre]
  simp [List.filter_cons, hd]

theorem assocLookup_applySet_of_not_mem (p : List (String × Json)) (d : Doc) (key : String)
    (h : ∀ kv ∈ p, kv.1 ≠ key) :
    assocLookup (applySet d p) key = assocLookup d key := by
  induction p generalizing d with
  | nil => rfl
  | cons hd tl ih =>
      have hstep : applySet d (hd :: tl) = applySet (assocSet d hd.1 hd.2) tl := rfl
      rw [hstep, ih (assocSet d hd.1 hd.2) (fun kv hkv => h kv (List.mem_cons_of_mem hd hkv))]
      exact assocLookup_assocSet_other d hd.1 key hd.2
        (fun he => h hd (List.mem_cons_self hd tl) he.symm)

theorem assocLookup_applySet_of_mem (p : List (String × Json)) (d : Doc)
    (hnd : (p.map Prod.fst).Nodup) (kv : String × Json) (hm : kv ∈ p) :
    assocLookup (applySet d p) kv.1 = some kv.2 := by
  induction p generalizing d with
  | nil => cases hm
  | cons hd tl ih =>
      have hstep : applySet d (hd :: tl) = applySet (assocSet d hd.1 hd.2) tl := rfl
      rw [List.map_cons, List.nodup_cons] at hnd
      rcases List.mem_cons.mp hm with he | ht
      · subst he
        rw [hstep]
        rw [assocLookup_applySet_of_not_mem tl (assocSet d kv.1 kv.2) kv.1
          (fun kv' hkv' heq => hnd.1 (heq ▸ List.mem_map_of_mem Prod.fst hkv'))]
        exact assocLookup_assocSet_self d kv.1 kv.2
      · exact hstep ▸ ih (assocSet d hd.1 hd.2) hnd.2 ht

theorem hexChar_isHex (n : Nat) : isHexChar (hexChar n) = true := by
  have h : n % 16 < 16 := Nat.mod_lt _ (by norm_num)
  unfold hexChar
  interval_cases h : (n % 16) <;> decide

theorem isValidOid_oidOfNat (n : Nat) : isValidOid (oidOfNat n) = true := by
  have hlen : (oidOfNat n).length = 24 := by simp [oidOfNat, String.length]
  have hall : (oidOfNat n).data.all isHexChar = true := by
    simp only [oidOfNat, List.all_eq_true]
    intro c hc
    obtain ⟨i, _, rfl⟩ := List.mem_map.mp hc
    exact hexChar_isHex _
  simp [isValidOid, hlen, hall]

theorem get_collection_of_none (k : Kule) (h : k.collections = none) (c : String) :
    k.get_collection c = .ok c := by
  simp [Kule.get_collection, collectionsTruthy, h]

theorem get_collection_of_some_nil (k : Kule) (h : k.collections = some []) (c : String) :
    k.get_collection c = .ok c := by
  simp [Kule.get_collection, collectionsTruthy, h]

theorem get_collection_forbidden (k : Kule) (wl : List String) (c : String)
    (h1 : k.collections = some wl) (h2 : wl ≠ []) (h3 : c ∉ wl) :
    k.get_collection c = .error (.http 403) := by
  have hne : wl.isEmpty = false := by simpa using h2
  simp [Kule.get_collection, collectionsTruthy, h1, hne, h3]

/-! Claim theorems. -/

/-- C1: for every verb and cardinality, a Kule configured with a non-empty
collection whitelist refuses a collection name outside it with a Forbidden
(403) condition, mapped by the error handler to the Forbidden envelope; with
no whitelist configured (`collections` absent or empty), `get_collection`
permits every collection name. -/
theorem whitelist_gates_every_operation
    (k : Kule) (wl : List String) (c : String)
    (hwl : k.collections = some wl) (hne : wl ≠ []) (hmem : c ∉ wl) :
    k.get_collection c = .error (.http 403) ∧
    (∀ pk db st, Kule.get_detail k c pk db st = .err (.http 403) db st) ∧
    (∀ req pk db st, Kule.put_detail k req c pk db st = .err (.http 403) db st) ∧
    (∀ req pk db st, Kule.patch_detail k req c pk db st = .err (.http 403) db st) ∧
    (∀ pk db st, Kule.delete_detail k c pk db st = .err (.http 403) db st) ∧
    (∀ req db st, Kule.post_list k req c db st = .err (.http 403) db st) ∧
    (∀ req db st, Kule.get_list k req c db st = .err (.http 403) db st) ∧
    (∀ pk db, runHandler (Kule.get_detail k c pk) db
      = (⟨403, some (Kule.error "Forbidden." 403)⟩, db)) ∧
    (∀ k' : Kule, k'.collections = none ∨ k'.collections = some [] →
      ∀ c', k'.get_collection c' = .ok c') := by
  have hf := get_collection_forbidden k wl c hwl hne hmem
  refine ⟨hf, ?_, ?_, ?_, ?_, ?_, ?_, ?_, ?_⟩
  · intro pk db st; simp [Kule.get_detail, hf]
  · intro req pk db st; simp [Kule.put_detail, hf]
  · intro req pk db st; simp [Kule.patch_detail, hf]
  · intro pk db st; simp [Kule.delete_detail, hf]
  · intro req db st; simp [Kule.post_list, hf]
  · intro req db st; simp [Kule.get_list, hf]
  · intro pk db
    simp [runHandler, Kule.get_detail, hf, bottle_handle, error_message]
  · rintro k' (h | h) c'
    · exact get_collection_of_none k' h c'
    · exact get_collection_of_some_nil k' h c'

/-- C1 witness: concrete instantiation with whitelist `["a"]` and collection
`"b"`. -/
theorem whitelist_gates_every_operation_witness :
    (⟨some ["a"], [], []⟩ : Kule).get_collection "b" = .error (.http 403) ∧
    (⟨none, [], []⟩ : Kule).get_collection "b" = .ok "b" := by
  have h := whitelist_gates_every_operation ⟨some ["a"], [], []⟩ ["a"] "b" rfl
    (by decide) (by simp)
  exact ⟨h.1, h.2.2.2.2.2.2.2.2 ⟨none, [], []⟩ (Or.inl rfl) "b"⟩

/-- C10: a request denied by the whitelist performs no store operation: every
handler, including the mutating ones, resolves the collection before touching
the store, so the final database equals the initial one. -/
theorem forbidden_request_leaves_store_unchanged
    (k : Kule) (wl : List String) (c : String)
    (hwl : k.collections = some wl) (hne : wl ≠ []) (hmem : c ∉ wl) :
    (∀ req db, runHandler (Kule.post_list k req c) db
      = (⟨403, some (Kule.error "Forbidden." 403)⟩, db)) ∧
    (∀ req pk db, runHandler (Kule.put_detail k req c pk) db
      = (⟨403, some (Kule.error "Forbidden." 403)⟩, db)) ∧
    (∀ req pk db, runHandler (Kule.patch_detail k req c pk) db
      = (⟨403, some (Kule.error "Forbidden." 403)⟩, db)) ∧
    (∀ pk db, runHandler (Kule.delete_detail k c pk) db
      = (⟨403, some (Kule.error "Forbidden." 403)⟩, db)) ∧
    (∀ pk db, (runHandler (Kule.get_detail k c pk) db).2 = db) ∧
    (∀ req db, (runHandler (Kule.get_list k req c) db).2 = db) := by
  have hf := get_collection_forbidden k wl c hwl hne hmem
  refine ⟨?_, ?_, ?_, ?_, ?_, ?_⟩
  · intro req db
    simp [runHandler, Kule.post_list, hf, bottle_handle, error_message]
  · intro req pk db
    simp [runHandler, Kule.put_detail, hf, bottle_handle, error_message]
  · intro req pk db
    simp [runHandler, Kule.patch_detail, hf, bottle_handle, error_message]
  · intro pk db
    simp [runHandler, Kule.delete_detail, hf, bottle_handle, error_message]
  · intro pk db
    simp [runHandler, Kule.get_detail, hf, bottle_handle, error_message]
  · intro req db
    simp [runHandler, Kule.get_list, hf, bottle_handle, error_message]

/-- C10 witness: a denied POST against a concrete store returns 403 and the
store is unchanged. -/
theorem forbidden_request_leaves_store_unchanged_witness :
    runHandler
      (Kule.post_list ⟨some ["a"], [], []⟩ ⟨some (.obj [("x", .num 7)]), none, none, none⟩ "b")
      ⟨[("b", [[("_id", Json.oid (oidOfNat 0))]])], 1⟩
      = (⟨403, some (Kule.error "Forbidden." 403)⟩,
         ⟨[("b", [[("_id", Json.oid (oidOfNat 0))]])], 1⟩) :=
  (forbidden_request_leaves_store_unchanged ⟨some ["a"], [], []⟩ ["a"] "b" rfl
    (by decide) (by simp)).1 ⟨some (.obj [("x", .num 7)]), none, none, none⟩
    ⟨[("b", [[("_id", Json.oid (oidOfNat 0))]])], 1⟩

/-- C2 counterexample: with no whitelist and an empty store, the list request
with `query=not-json` makes `json.loads` raise; the response is the 500
Internal Server Error envelope, not a Bad Request (400) — refuting the claim
that malformed query JSON yields a 400 condition. -/
theorem malformed_query_counterexample :
    Kule.get_query ⟨none, none, none, some "not-json"⟩ = .error "ValueError" ∧
    runHandler
      (Kule.get_list ⟨none, [], []⟩ ⟨none, none, none, some "not-json"⟩ "things") ⟨[], 0⟩
      = (⟨500, some (Kule.error "Internal Server Error." 500)⟩, ⟨[], 0⟩) ∧
    (500 : Nat) ≠ 400 := by
  refine ⟨rfl, rfl, by decide⟩

/-- C2 (amended): an absent `query` parameter yields the empty filter; a
`query` parameter that is not valid JSON raises an unhandled ValueError,
surfaced as a 500 Internal Server Error response (never a silent empty
filter, but also not a Bad Request). -/
theorem malformed_query_surfaces_as_internal_error
    (k : Kule) (c : String) (req : Request) (q : String) (db : MongoDB)
    (hperm : k.get_collection c = .ok c) :
    (req.query = none → Kule.get_query req = .ok (Json.obj [])) ∧
    (req.query = some q → q ≠ "" → json_loads q = .error "ValueError" →
      Kule.get_list k req c db 200 = .err (.exc "ValueError") db 200 ∧
      runHandler (Kule.get_list k req c) db
        = (⟨500, some (Kule.error "Internal Server Error." 500)⟩, db)) := by
  constructor
  · intro h
    simp [Kule.get_query, h]
  · intro hq hne hbad
    have hgq : Kule.get_query req = .error "ValueError" := by
      simp [Kule.get_query, hq, hne, hbad]
    constructor
    · simp [Kule.get_list, hperm, hgq]
    · simp [runHandler, Kule.get_list, hperm, hgq, bottle_handle, error_message]

/-- C2 witness: the amended theorem applied to a concrete absent-query request
and a concrete malformed-query request. -/
theorem malformed_query_surfaces_as_internal_error_witness :
    Kule.get_query ⟨none, none, none, none⟩ = .ok (Json.obj []) ∧
    runHandler
      (Kule.get_list ⟨none, [], []⟩ ⟨none, none, none, some "not-json"⟩ "c") ⟨[], 0⟩
      = (⟨500, some (Kule.error "Internal Server Error." 500)⟩, ⟨[], 0⟩) := by
  refine ⟨?_, ?_⟩
  · exact (malformed_query_surfaces_as_internal_error ⟨none, [], []⟩ "c"
      ⟨none, none, none, none⟩ "" ⟨[], 0⟩ rfl).1 rfl
  · exact ((malformed_query_surfaces_as_internal_error ⟨none, [], []⟩ "c"
      ⟨none, none, none, some "not-json"⟩ "not-json" ⟨[], 0⟩ rfl).2 rfl
      (by decide) rfl).2

/-- C3 counterexample: GET detail with the malformed pk `"xyz"` (not a valid
ObjectId) answers 500 Internal Server Error, not a Bad Request (400) —
refuting the claim that a malformed pk yields a 400-class error. -/
theorem malformed_pk_counterexample :
    runHandler (Kule.get_detail ⟨none, [], []⟩ "things" "xyz") ⟨[], 0⟩
      = (⟨500, some (Kule.error "Internal Server Error." 500)⟩, ⟨[], 0⟩) ∧
    (500 : Nat) ≠ 400 := by
  refine ⟨rfl, by decide⟩

/-- C3 (amended): on every detail operation, a pk string that is not
well-formed for the store's id type makes the `ObjectId` constructor raise
`InvalidId`, an unhandled exception surfaced as 500 Internal Server Error —
not a Bad Request (400). -/
theorem malformed_pk_surfaces_as_internal_error
    (k : Kule) (c pk : String) (req : Request) (db : MongoDB) (st : Nat)
    (hperm : k.get_collection c = .ok c)
    (hbad : isValidOid pk = false) :
    Kule.get_detail k c pk db st = .err (.exc "InvalidId") db st ∧
    Kule.put_detail k req c pk db st = .err (.exc "InvalidId") db st ∧
    Kule.patch_detail k req c pk db st = .err (.exc "InvalidId") db st ∧
    Kule.delete_detail k c pk db st = .err (.exc "InvalidId") db st ∧
    runHandler (Kule.get_detail k c pk) db
      = (⟨500, some (Kule.error "Internal Server Error." 500)⟩, db) := by
  have hoid : objectIdFromString pk = .error "InvalidId" := by
    simp [objectIdFromString, hbad]
  refine ⟨?_, ?_, ?_, ?_, ?_⟩
  · simp [Kule.get_detail, hperm, hoid]
  · simp [Kule.put_detail, hperm, hoid]
  · simp [Kule.patch_detail, hperm, hoid]
  · simp [Kule.delete_detail, hperm, hoid]
  · simp [runHandler, Kule.get_detail, hperm, hoid, bottle_handle, error_message]

/-- C3 witness: the amended theorem at the malformed pk `"xyz"`. -/
theorem malformed_pk_surfaces_as_internal_error_witness :
    Kule.get_detail ⟨none, [], []⟩ "things" "xyz" ⟨[], 0⟩ 200
      = .err (.exc "InvalidId") ⟨[], 0⟩ 200 ∧
    runHandler (Kule.get_detail ⟨none, [], []⟩ "things" "xyz") ⟨[], 0⟩
      = (⟨500, some (Kule.error "Internal Server Error." 500)⟩, ⟨[], 0⟩) := by
  have h := malformed_pk_surfaces_as_internal_error ⟨none, [], []⟩ "things" "xyz"
    ⟨none, none, none, none⟩ ⟨[], 0⟩ 200 rfl (by decide)
  exact ⟨h.1, h.2.2.2.2⟩

/-- C4: on a permitted collection with the generic bundler, POST of
`{"a":1}` answers 201 with `{_id: <fresh id>}`, and GET detail with that id
answers 200 with `{"a":1}` merged with the `_id` field; GET detail with an id
matching no document fails 404. -/
theorem create_then_detail_roundtrip
    (k : Kule) (c : String) (db : MongoDB) (st st' : Nat)
    (hperm : k.get_collection c = .ok c)
    (hbundle : assocLookup k.extraBundlers ("build_" ++ c ++ "_bundle") = none)
    (hfresh : ∀ d ∈ db.getColl c,
      assocLookup d "_id" ≠ some (Json.oid (oidOfNat db.nextId))) :
    ∃ (newId : String) (db' : MongoDB),
      newId = oidOfNat db.nextId ∧
      Kule.post_list k ⟨some (Json.obj [("a", Json.num 1)]), none, none, none⟩ c db st
        = .ok (some (Json.obj [("_id", Json.oid newId)])) db' 201 ∧
      runHandler (Kule.post_list k ⟨some (Json.obj [("a", Json.num 1)]), none, none, none⟩ c) db
        = (⟨201, some (Json.obj [("_id", Json.oid newId)])⟩, db') ∧
      Kule.get_detail k c newId db' st'
        = .ok (some (Json.obj [("_id", Json.oid newId), ("a", Json.num 1)])) db' st' ∧
      runHandler (Kule.get_detail k c newId) db'
        = (⟨200, some (Json.obj [("_id", Json.oid newId), ("a", Json.num 1)])⟩, db') ∧
      (∀ (pk : String) (db₀ : MongoDB) (st₀ : Nat), isValidOid pk = true →
        db₀.find_one c [("_id", Json.oid pk)] = none →
        Kule.get_detail k c pk db₀ st₀ = .err (.http 404) db₀ st₀) := by
  refine ⟨oidOfNat db.nextId,
    ⟨assocSet db.colls c (db.getColl c
      ++ [[("_id", Json.oid (oidOfNat db.nextId)), ("a", Json.num 1)]]), db.nextId + 1⟩,
    rfl, ?_, ?_, ?_, ?_, ?_⟩
  case _ =>
    have h1 : MongoDB.insert db c (some (Json.obj [("a", Json.num 1)]))
        = .ok (Json.oid (oidOfNat db.nextId),
            ⟨assocSet db.colls c (db.getColl c
              ++ [[("_id", Json.oid (oidOfNat db.nextId)), ("a", Json.num 1)]]),
             db.nextId + 1⟩) := rfl
    simp [Kule.post_list, hperm, h1, jsonify]
  case _ =>
    have h1 : MongoDB.insert db c (some (Json.obj [("a", Json.num 1)]))
        = .ok (Json.oid (oidOfNat db.nextId),
            ⟨assocSet db.colls c (db.getColl c
              ++ [[("_id", Json.oid (oidOfNat db.nextId)), ("a", Json.num 1)]]),
             db.nextId + 1⟩) := rfl
    simp [runHandler, Kule.post_list, hperm, h1, jsonify, bottle_handle]
  case _ =>
    have hoid : objectIdFromString (oidOfNat db.nextId) = .ok (oidOfNat db.nextId) := by
      simp [objectIdFromString, isValidOid_oidOfNat]
    have hfind : MongoDB.find_one
        ⟨assocSet db.colls c (db.getColl c
          ++ [[("_id", Json.oid (oidOfNat db.nextId)), ("a", Json.num 1)]]), db.nextId + 1⟩
        c [("_id", Json.oid (oidOfNat db.nextId))]
        = some [("_id", Json.oid (oidOfNat db.nextId)), ("a", Json.num 1)] := by
      rw [MongoDB.find_one, MongoDB.findDocs]
      rw [show MongoDB.getColl
            ⟨assocSet db.colls c (db.getColl c
              ++ [[("_id", Json.oid (oidOfNat db.nextId)), ("a", Json.num 1)]]), db.nextId + 1⟩ c
          = db.getColl c
              ++ [[("_id", Json.oid (oidOfNat db.nextId)), ("a", Json.num 1)]] from by
        simp [MongoDB.getColl, assocLookup_assocSet_self]]
      exact head_filter_around (db.getColl c) [] _ _
        (fun x hx => by
          rw [matchesFilter_single]
          exact beq_eq_false_iff_ne.mpr (hfresh x hx))
        (by rw [matchesFilter_single]; simp [assocLookup])
    simp [Kule.get_detail, hperm, hoid, hfind, docTruthy, Kule.get_bundler, hbundle,
      Kule.build_bundle, jsonify]
  case _ =>
    have hoid : objectIdFromString (oidOfNat db.nextId) = .ok (oidOfNat db.nextId) := by
      simp [objectIdFromString, isValidOid_oidOfNat]
    have hfind : MongoDB.find_one
        ⟨assocSet db.colls c (db.getColl c
          ++ [[("_id", Json.oid (oidOfNat db.nextId)), ("a", Json.num 1)]]), db.nextId + 1⟩
        c [("_id", Json.oid (oidOfNat db.nextId))]
        = some [("_id", Json.oid (oidOfNat db.nextId)), ("a", Json.num 1)] := by
      rw [MongoDB.find_one, MongoDB.findDocs]
      rw [show MongoDB.getColl
            ⟨assocSet db.colls c (db.getColl c
              ++ [[("_id", Json.oid (oidOfNat db.nextId)), ("a", Json.num 1)]]), db.nextId + 1⟩ c
          = db.getColl c
              ++ [[("_id", Json.oid (oidOfNat db.nextId)), ("a", Json.num 1)]] from by
        simp [MongoDB.getColl, assocLookup_assocSet_self]]
      exact head_filter_around (db.getColl c) [] _ _
        (fun x hx => by
          rw [matchesFilter_single]
          exact beq_eq_false_iff_ne.mpr (hfresh x hx))
        (by rw [matchesFilter_single]; simp [assocLookup])
    simp [runHandler, Kule.get_detail, hperm, hoid, hfind, docTruthy, Kule.get_bundler,
      hbundle, Kule.build_bundle, jsonify, bottle_handle]
  case _ =>
    intro pk db₀ st₀ hval hnone
    simp [Kule.get_detail, hperm, objectIdFromString, hval, hnone]

/-- C4 witness: the round trip on an empty store. -/
theorem create_then_detail_roundtrip_witness :
    ∃ (newId : String) (db' : MongoDB),
      newId = oidOfNat 0 ∧
      Kule.post_list ⟨none, [], []⟩ ⟨some (Json.obj [("a", Json.num 1)]), none, none, none⟩
          "c" ⟨[], 0⟩ 200
        = .ok (some (Json.obj [("_id", Json.oid newId)])) db' 201 ∧
      runHandler (Kule.post_list ⟨none, [], []⟩
          ⟨some (Json.obj [("a", Json.num 1)]), none, none, none⟩ "c") ⟨[], 0⟩
        = (⟨201, some (Json.obj [("_id", Json.oid newId)])⟩, db') ∧
      Kule.get_detail ⟨none, [], []⟩ "c" newId db' 200
        = .ok (some (Json.obj [("_id", Json.oid newId), ("a", Json.num 1)])) db' 200 ∧
      runHandler (Kule.get_detail ⟨none, [], []⟩ "c" newId) db'
        = (⟨200, some (Json.obj [("_id", Json.oid newId), ("a", Json.num 1)])⟩, db') ∧
      (∀ (pk : String) (db₀ : MongoDB) (st₀ : Nat), isValidOid pk = true →
        db₀.find_one "c" [("_id", Json.oid pk)] = none →
        Kule.get_detail ⟨none, [], []⟩ "c" pk db₀ st₀ = .err (.http 404) db₀ st₀) :=
  create_then_detail_roundtrip ⟨none, [], []⟩ "c" ⟨[], 0⟩ 200 200 rfl rfl
    (by intro d hd; simp [MongoDB.getColl, assocLookup] at hd)

/-- C5: a permitted list request whose query parses to a filter answers 200
with the `{meta, objects}` envelope, where `total_count` is the number of all
documents matching the filter (not just the returned page) and every returned
object has the collection's bundler applied; on an empty collection with
default pagination the result is exactly
`{meta: {limit: 20, offset: 0, total_count: 0}, objects: []}`. -/
theorem list_envelope_counts_all_matching
    (k : Kule) (c : String) (req : Request) (f : List (String × Json))
    (db : MongoDB) (st : Nat)
    (hperm : k.get_collection c = .ok c)
    (hq : Kule.get_query req = .ok (Json.obj f)) :
    Kule.get_list k req c db st
      = .ok (some (Json.obj
          [("meta", Json.obj
              [("limit", Json.num (int_or_default req.limit 20)),
               ("offset", Json.num (int_or_default req.offset 0)),
               ("total_count", Json.num (db.findDocs c f).length)]),
           ("objects", Json.arr
              ((cursorPage (db.findDocs c f) (int_or_default req.offset 0)
                  (int_or_default req.limit 20)).map
                (fun d => Json.obj (k.get_bundler c d))))])) db st ∧
    (req.limit = none → req.offset = none → db.getColl c = [] →
      runHandler (Kule.get_list k req c) db
        = (⟨200, some (Json.obj
            [("meta", Json.obj [("limit", Json.num 20), ("offset", Json.num 0),
                                 ("total_count", Json.num 0)]),
             ("objects", Json.arr [])])⟩, db)) := by
  constructor
  · simp [Kule.get_list, hperm, hq, MongoDB.find, jsonify]
  · intro h1 h2 h3
    have hdocs : db.findDocs c f = [] := by
      simp [MongoDB.findDocs, h3]
    simp [runHandler, Kule.get_list, hperm, hq, MongoDB.find, jsonify, bottle_handle,
      hdocs, h1, h2, int_or_default, cursorPage]

/-- C5 witness: the exact empty-collection envelope on a concrete store. -/
theorem list_envelope_counts_all_matching_witness :
    runHandler (Kule.get_list ⟨none, [], []⟩ ⟨none, none, none, none⟩ "c") ⟨[], 0⟩
      = (⟨200, some (Json.obj
          [("meta", Json.obj [("limit", Json.num 20), ("offset", Json.num 0),
                               ("total_count", Json.num 0)]),
           ("objects", Json.arr [])])⟩, ⟨[], 0⟩) :=
  (list_envelope_counts_all_matching ⟨none, [], []⟩ "c" ⟨none, none, none, none⟩ []
    ⟨[], 0⟩ 200 rfl rfl).2 rfl rfl rfl

/-- C6: PATCH on an existing document merges exactly the supplied fields into
the stored document (other fields and other documents untouched) and answers
202 with the re-fetched, re-bundled document. -/
theorem patch_merges_only_supplied_fields
    (k : Kule) (c idv : String) (pre post : List Doc) (d : Doc)
    (p : List (String × Json)) (db : MongoDB) (st : Nat)
    (hperm : k.get_collection c = .ok c)
    (hbundle : assocLookup k.extraBundlers ("build_" ++ c ++ "_bundle") = none)
    (hvalid : isValidOid idv = true)
    (hcoll : db.getColl c = pre ++ d :: post)
    (hpre : ∀ d' ∈ pre, assocLookup d' "_id" ≠ some (Json.oid idv))
    (hd : assocLookup d "_id" = some (Json.oid idv))
    (hnid : ∀ kv ∈ p, kv.1 ≠ "_id") :
    Kule.patch_detail k ⟨some (Json.obj p), none, none, none⟩ c idv db st
      = .ok (some (Json.obj (applySet d p)))
          (db.setColl c (pre ++ applySet d p :: post)) 202 ∧
    runHandler (Kule.patch_detail k ⟨some (Json.obj p), none, none, none⟩ c idv) db
      = (⟨202, some (Json.obj (applySet d p))⟩,
         db.setColl c (pre ++ applySet d p :: post)) ∧
    (∀ key, (∀ kv ∈ p, kv.1 ≠ key) →
      assocLookup (applySet d p) key = assocLookup d key) ∧
    ((p.map Prod.fst).Nodup →
      ∀ kv ∈ p, assocLookup (applySet d p) kv.1 = some kv.2) := by
  have hoid : objectIdFromString idv = .ok idv := by
    simp [objectIdFromString, hvalid]
  have hpre' : ∀ x ∈ pre, matchesFilter x [("_id", Json.oid idv)] = false := fun x hx => by
    rw [matchesFilter_single]
    exact beq_eq_false_iff_ne.mpr (hpre x hx)
  have hdm : matchesFilter d [("_id", Json.oid idv)] = true := by
    rw [matchesFilter_single, hd]
    simp
  have hupd : MongoDB.update db c [("_id", Json.oid idv)]
      (some (Json.obj [("$set", Json.obj p)]))
      = .ok (db.setColl c (pre ++ applySet d p :: post)) := by
    show Except.ok (db.setColl c (updateFirst (db.getColl c) [("_id", Json.oid idv)]
        (fun x => applySet x p))) = _
    rw [hcoll, updateFirst_append pre post d _ _ hpre' hdm]
  have hd' : assocLookup (applySet d p) "_id" = some (Json.oid idv) := by
    rw [assocLookup_applySet_of_not_mem p d "_id" hnid]
    exact hd
  have hdm' : matchesFilter (applySet d p) [("_id", Json.oid idv)] = true := by
    rw [matchesFilter_single, hd']
    simp
  have hfind : MongoDB.find_one (db.setColl c (pre ++ applySet d p :: post)) c
      [("_id", Json.oid idv)] = some (applySet d p) := by
    rw [MongoDB.find_one, MongoDB.findDocs, MongoDB.getColl_setColl]
    exact head_filter_around pre post _ _ hpre' hdm'
  have htr : docTruthy (applySet d p) = true := docTruthy_of_lookup _ _ _ hd'
  refine ⟨?_, ?_, ?_, ?_⟩
  · simp [Kule.patch_detail, hperm, hoid, jsonOfOptional, hupd, Kule.get_detail, hfind,
      htr, Kule.get_bundler, hbundle, Kule.build_bundle, jsonify]
  · simp [runHandler, Kule.patch_detail, hperm, hoid, jsonOfOptional, hupd,
      Kule.get_detail, hfind, htr, Kule.get_bundler, hbundle, Kule.build_bundle,
      jsonify, bottle_handle]
  · exact fun key h => assocLookup_applySet_of_not_mem p d key h
  · exact fun hnd kv hm => assocLookup_applySet_of_mem p d hnd kv hm

/-- C6 witness: patching `{"a":2}` onto the stored `{"a":1,"b":3}` answers 202
with `{"a":2,"b":3}` (field `b` untouched). -/
theorem patch_merges_only_supplied_fields_witness :
    runHandler
      (Kule.patch_detail ⟨none, [], []⟩ ⟨some (Json.obj [("a", Json.num 2)]), none, none, none⟩
        "c" (oidOfNat 0))
      ⟨[("c", [[("_id", Json.oid (oidOfNat 0)), ("a", Json.num 1), ("b", Json.num 3)]])], 1⟩
      = (⟨202, some (Json.obj
          [("_id", Json.oid (oidOfNat 0)), ("a", Json.num 2), ("b", Json.num 3)])⟩,
         MongoDB.setColl
           ⟨[("c", [[("_id", Json.oid (oidOfNat 0)), ("a", Json.num 1), ("b", Json.num 3)]])], 1⟩
           "c" [[("_id", Json.oid (oidOfNat 0)), ("a", Json.num 2), ("b", Json.num 3)]]) :=
  (patch_merges_only_supplied_fields ⟨none, [], []⟩ "c" (oidOfNat 0) [] []
    [("_id", Json.oid (oidOfNat 0)), ("a", Json.num 1), ("b", Json.num 3)]
    [("a", Json.num 2)]
    ⟨[("c", [[("_id", Json.oid (oidOfNat 0)), ("a", Json.num 1), ("b", Json.num 3)]])], 1⟩
    200 rfl rfl (isValidOid_oidOfNat 0) rfl (by simp) rfl (by decide)).2.1

/-- C7: DELETE on a permitted collection with a well-formed pk answers 204
with an empty body whether or not a matching document exists, and deleting
twice leaves the store in the same state as deleting once. -/
theorem delete_is_idempotent
    (k : Kule) (c pk : String) (db : MongoDB) (st : Nat)
    (hperm : k.get_collection c = .ok c)
    (hvalid : isValidOid pk = true) :
    Kule.delete_detail k c pk db st
      = .ok none (db.remove c [("_id", Json.oid pk)]) 204 ∧
    runHandler (Kule.delete_detail k c pk) db
      = (⟨204, none⟩, db.remove c [("_id", Json.oid pk)]) ∧
    (db.remove c [("_id", Json.oid pk)]).remove c [("_id", Json.oid pk)]
      = db.remove c [("_id", Json.oid pk)] ∧
    runHandler (Kule.delete_detail k c pk) (db.remove c [("_id", Json.oid pk)])
      = (⟨204, none⟩, db.remove c [("_id", Json.oid pk)]) := by
  have hoid : objectIdFromString pk = .ok pk := by
    simp [objectIdFromString, hvalid]
  have hidem : (db.remove c [("_id", Json.oid pk)]).remove c [("_id", Json.oid pk)]
      = db.remove c [("_id", Json.oid pk)] := by
    show (db.remove c [("_id", Json.oid pk)]).setColl c _ = _
    rw [show (db.remove c [("_id", Json.oid pk)]).getColl c
        = (db.getColl c).filter (fun x => !matchesFilter x [("_id", Json.oid pk)]) from
      MongoDB.getColl_setColl db c _]
    rw [List.filter_filter]
    simp only [Bool.and_self]
    exact MongoDB.setColl_setColl db c _ _
  refine ⟨?_, ?_, hidem, ?_⟩
  · simp [Kule.delete_detail, hperm, hoid]
  · simp [runHandler, Kule.delete_detail, hperm, hoid, bottle_handle]
  · simp [runHandler, Kule.delete_detail, hperm, hoid, bottle_handle, hidem]

/-- C7 witness: deleting a pk that matches nothing on a concrete store still
answers 204 with an empty body. -/
theorem delete_is_idempotent_witness :
    runHandler (Kule.delete_detail ⟨none, [], []⟩ "c" (oidOfNat 7)) ⟨[], 0⟩
      = (⟨204, none⟩, MongoDB.remove ⟨[], 0⟩ "c" [("_id", Json.oid (oidOfNat 7))]) :=
  (delete_is_idempotent ⟨none, [], []⟩ "c" (oidOfNat 7) ⟨[], 0⟩ 200 rfl
    (isValidOid_oidOfNat 7)).2.1

/-- Building the bundler method name is injective in the collection name. -/
theorem bundle_name_inj (c c' : String)
    (h : "build_" ++ c ++ "_bundle" = "build_" ++ c' ++ "_bundle") : c = c' := by
  have hd : ("build_" ++ c ++ "_bundle").data = ("build_" ++ c' ++ "_bundle").data := by
    rw [h]
  simp only [String.data_append] at hd
  have h1 : "build_".data ++ c.data = "build_".data ++ c'.data :=
    List.append_cancel_right hd
  have h2 : c.data = c'.data := List.append_cancel_left h1
  cases c; cases c'
  exact congrArg String.mk (by simpa using h2)

/-- C8: route-table construction registers, for every verb, the generic
`/:collection` and `/:collection/:pk` paths to `<verb>_list` / `<verb>_detail`
when such a handler exists and otherwise to `not_implemented` (which fails
with 501 and the Not Implemented envelope); collection-specific paths are
registered exactly for the (verb, collection) pairs whose named handler
exists. -/
theorem dispatch_views_routes
    (k : Kule)
    (hviews : k.extraViews = []) (hbundlers : k.extraBundlers = [])
    (hcols : k.collections = none) :
    Kule.dispatch_views k =
      [⟨"/:collection", "get", "get_list"⟩,
       ⟨"/:collection/:pk", "get", "get_detail"⟩,
       ⟨"/:collection", "post", "post_list"⟩,
       ⟨"/:collection/:pk", "post", "not_implemented"⟩,
       ⟨"/:collection", "put", "not_implemented"⟩,
       ⟨"/:collection/:pk", "put", "put_detail"⟩,
       ⟨"/:collection", "patch", "not_implemented"⟩,
       ⟨"/:collection/:pk", "patch", "patch_detail"⟩,
       ⟨"/:collection", "delete", "not_implemented"⟩,
       ⟨"/:collection/:pk", "delete", "delete_detail"⟩] ∧
    (∀ k' : Kule, k'.extraViews = ["get_widgets_list", "delete_widgets_detail"] →
      k'.extraBundlers = [] → k'.collections = some ["widgets", "things"] →
      Kule.dispatch_views k' =
        [⟨"/:collection", "get", "get_list"⟩,
         ⟨"/:collection/:pk", "get", "get_detail"⟩,
         ⟨"/widgets", "get", "get_widgets_list"⟩,
         ⟨"/:collection", "post", "post_list"⟩,
         ⟨"/:collection/:pk", "post", "not_implemented"⟩,
         ⟨"/:collection", "put", "not_implemented"⟩,
         ⟨"/:collection/:pk", "put", "put_detail"⟩,
         ⟨"/:collection", "patch", "not_implemented"⟩,
         ⟨"/:collection/:pk", "patch", "patch_detail"⟩,
         ⟨"/:collection", "delete", "not_implemented"⟩,
         ⟨"/:collection/:pk", "delete", "delete_detail"⟩,
         ⟨"/widgets/:id", "delete", "delete_widgets_detail"⟩]) ∧
    (∀ db st, Kule.not_implemented db st = .err (.http 501) db st) ∧
    (∀ db, runHandler Kule.not_implemented db
      = (⟨501, some (Kule.error "Not Implemented." 501)⟩, db)) := by
  refine ⟨?_, ?_, fun db st => rfl, fun db => rfl⟩
  · simp only [Kule.dispatch_views, Kule.hasMethod, hviews, hbundlers, hcols]
    decide
  · intro k' hv hb hc
    simp only [Kule.dispatch_views, Kule.hasMethod, hv, hb, hc]
    decide

/-- C8 witness: the route tables of a bare Kule and of a subclass with two
magical views, computed concretely. -/
theorem dispatch_views_routes_witness :
    Kule.dispatch_views ⟨none, [], []⟩ =
      [⟨"/:collection", "get", "get_list"⟩,
       ⟨"/:collection/:pk", "get", "get_detail"⟩,
       ⟨"/:collection", "post", "post_list"⟩,
       ⟨"/:collection/:pk", "post", "not_implemented"⟩,
       ⟨"/:collection", "put", "not_implemented"⟩,
       ⟨"/:collection/:pk", "put", "put_detail"⟩,
       ⟨"/:collection", "patch", "not_implemented"⟩,
       ⟨"/:collection/:pk", "patch", "patch_detail"⟩,
       ⟨"/:collection", "delete", "not_implemented"⟩,
       ⟨"/:collection/:pk", "delete", "delete_detail"⟩] ∧
    Kule.dispatch_views
        ⟨some ["widgets", "things"], [], ["get_widgets_list", "delete_widgets_detail"]⟩ =
      [⟨"/:collection", "get", "get_list"⟩,
       ⟨"/:collection/:pk", "get", "get_detail"⟩,
       ⟨"/widgets", "get", "get_widgets_list"⟩,
       ⟨"/:collection", "post", "post_list"⟩,
       ⟨"/:collection/:pk", "post", "not_implemented"⟩,
       ⟨"/:collection", "put", "not_implemented"⟩,
       ⟨"/:collection/:pk", "put", "put_detail"⟩,
       ⟨"/:collection", "patch", "not_implemented"⟩,
       ⟨"/:collection/:pk", "patch", "patch_detail"⟩,
       ⟨"/:collection", "delete", "not_implemented"⟩,
       ⟨"/:collection/:pk", "delete", "delete_detail"⟩,
       ⟨"/widgets/:id", "delete", "delete_widgets_detail"⟩] := by
  have h := dispatch_views_routes ⟨none, [], []⟩ rfl rfl rfl
  exact ⟨h.1, h.2.1 ⟨some ["widgets", "things"], [], ["get_widgets_list", "delete_widgets_detail"]⟩
    rfl rfl rfl⟩

/-- C9: the bundler applied to each document is the method named
`build_<collection>_bundle` when defined and otherwise the generic
`build_bundle`, which is the identity on documents; a collection-specific
bundler affects no other collection's resolution. -/
theorem bundler_resolution
    (k : Kule) (c : String) :
    (assocLookup k.extraBundlers ("build_" ++ c ++ "_bundle") = none →
      k.get_bundler c = Kule.build_bundle) ∧
    (∀ f, assocLookup k.extraBundlers ("build_" ++ c ++ "_bundle") = some f →
      k.get_bundler c = f) ∧
    (∀ d : Doc, Kule.build_bundle d = d) ∧
    (∀ (f : Doc → Doc) (k' : Kule),
      k'.extraBundlers = [("build_" ++ c ++ "_bundle", f)] →
      k'.get_bundler c = f ∧
      ∀ c', c' ≠ c → k'.get_bundler c' = Kule.build_bundle) := by
  refine ⟨?_, ?_, fun d => rfl, ?_⟩
  · intro h
    simp [Kule.get_bundler, h]
  · intro f h
    simp [Kule.get_bundler, h]
  · intro f k' hk'
    constructor
    · simp [Kule.get_bundler, hk', assocLookup]
    · intro c' hcc
      have hne : ("build_" ++ c ++ "_bundle") ≠ ("build_" ++ c' ++ "_bundle") :=
        fun h => hcc (bundle_name_inj c c' h).symm
      simp [Kule.get_bundler, hk', assocLookup, hne]

/-- C9 witness: a `widgets` bundler adding a computed field applies to
`widgets` and not to `things`, where the identity bundler is used. -/
theorem bundler_resolution_witness :
    Kule.get_bundler
        ⟨none, [("build_widgets_bundle", fun d => ("computed", Json.bool true) :: d)], []⟩
        "widgets"
      = (fun d => ("computed", Json.bool true) :: d) ∧
    Kule.get_bundler
        ⟨none, [("build_widgets_bundle", fun d => ("computed", Json.bool true) :: d)], []⟩
        "things"
      = Kule.build_bundle := by
  have h := (bundler_resolution
    ⟨none, [("build_widgets_bundle", fun d => ("computed", Json.bool true) :: d)], []⟩
    "widgets").2.2.2 (fun d => ("computed", Json.bool true) :: d)
    ⟨none, [("build_widgets_bundle", fun d => ("computed", Json.bool true) :: d)], []⟩ rfl
  exact ⟨h.1, h.2 "things" (by decide)⟩
